import Mathlib

/-!
Shallow embedding of the ESP32 IoTFlow firmware sketch
(src/esp32_examples/src/main_api_key_only.cpp, with constants from
src/esp32_examples/src/device_config_simple.h).

The firmware is sequential glue: global mutable state (device_id,
mqttConnected, lastTelemetry, lastHeartbeat, the LED pin) plus calls into
library clients (WiFi, HTTPClient, PubSubClient, DHT).  The embedding models
the globals as a `DeviceState` record, library-observable side effects as an
explicit `Event` trace, and library-provided inputs (sensor readings, HTTP
responses, connect-attempt outcomes, clock reads) as explicit environment
parameters.  JSON documents built with ArduinoJson are modelled as ordered
association lists (`JObj`); the results of `deserializeJson` on inbound or
HTTP payloads are environment inputs at exactly the granularity the sketch
inspects them.  Unsigned 32-bit timer arithmetic (`millis()` differences on
`unsigned long`) is modelled with explicit reduction mod 2^32.
-/

namespace IoTFlow

/-- JSON scalar values appearing in payloads built by the sketch. -/
inductive JVal where
  | s (v : String)
  | i (v : Int)
  | q (v : ℚ)
  | b (v : Bool)
deriving DecidableEq

/-- An ArduinoJson document: an ordered list of key/value pairs
(serialization order is insertion order). -/
abbrev JObj := List (String × JVal)

/-- ArduinoJson `doc.containsKey(k)`. -/
def JObj.containsKey (o : JObj) (k : String) : Bool :=
  o.any (fun p => p.1 == k)

/-- Lookup of a key's value in a document. -/
def JObj.get (o : JObj) (k : String) : Option JVal :=
  (o.find? (fun p => p.1 == k)).map Prod.snd

/-- ArduinoJson `v.as<String>()` on the modelled scalar values. -/
def JVal.asString : JVal → String
  | .s v => v
  | .i v => toString v
  | .q v => toString v
  | .b v => toString v

/-! Configuration constants from device_config_simple.h. -/

def DEVICE_API_KEY : String :=
  "7792e1aa708e6acccb2e4a800464ae5a5c9d5a000b12a2f62dfbab631805a3a3"

/-- Alias `#define API_KEY DEVICE_API_KEY` from the sketch. -/
def API_KEY : String := DEVICE_API_KEY

def SERVER_HOST : String := "10.200.242.133"

def HTTP_PORT : Int := 5000

def MQTT_PORT : Int := 1883

def LED_PIN : Nat := 2

def TELEMETRY_INTERVAL : Nat := 10000

def HEARTBEAT_INTERVAL : Nat := 60000

/-- Observable side effects of the sketch: MQTT/HTTP library calls, writes
to the mqttConnected global, GPIO writes, LED blink loops, delays, device
restart, and serial log lines. -/
inductive Event where
  | publish (topic : String) (payload : JObj) (retained : Bool)
  | subscribe (topic : String)
  | connectAttempt (clientId : String) (lwtTopic : String)
  | httpGet (url : String)
  | setMqttConnected (b : Bool)
  | digitalWrite (pin : Nat) (high : Bool)
  | blink (times : Nat) (delayMs : Nat)
  | delayEv (ms : Nat)
  | restart
  | log (msg : String)
deriving DecidableEq

/-- The sketch's global mutable state, plus the PubSubClient's own
connection state (`client.connected()`), observed but owned by the library. -/
structure DeviceState where
  device_id : Int
  mqttConnected : Bool
  lastTelemetry : Nat
  lastHeartbeat : Nat
  clientConnected : Bool
  ledHigh : Bool
deriving DecidableEq

/-- Unsigned 32-bit subtraction, as computed by `currentTime - lastX` on
`unsigned long` values in the loop's timer checks. -/
def usub32 (a b : Nat) : Nat :=
  (a % 4294967296 + (4294967296 - b % 4294967296)) % 4294967296

/-- Whether an event is an MQTT publish. -/
def isPublish : Event → Bool
  | .publish _ _ _ => true
  | _ => false

/-- Whether an event is an outbound HTTP or messaging (connect, publish,
subscribe) library call. -/
def isComm : Event → Bool
  | .publish _ _ _ => true
  | .subscribe _ => true
  | .connectAttempt _ _ => true
  | .httpGet _ => true
  | _ => false

/-- The payloads of the publish events of a trace, in order. -/
def publishedPayloads (evs : List Event) : List JObj :=
  evs.filterMap (fun e => match e with | .publish _ p _ => some p | _ => none)

/-- The visible (LED-driving) events of a trace: blinks and GPIO writes. -/
def visualEvents (evs : List Event) : List Event :=
  evs.filter (fun e => match e with
    | .blink _ _ => true
    | .digitalWrite _ _ => true
    | _ => false)

/-- Substring test: Arduino `message.indexOf(pat) >= 0`. -/
def strContains (msg pat : String) : Bool :=
  decide (pat.toList <:+: msg.toList)

/-! Provisioning: `getDeviceIdFromServer` (lines 195-252). -/

/-- The provisioning HTTP exchange as the sketch observes it: the response
code, whether `deserializeJson` succeeded on the body, whether the document
contains a `device` object, and the fields the sketch extracts from that
object (`deviceObj["id"]` reads as 0 when absent or non-integer, matching
ArduinoJson defaulting). -/
structure ProvisioningResponse where
  httpCode : Int
  parseOk : Bool
  hasDevice : Bool
  id : Int
  name : String
  device_type : String
deriving DecidableEq

/-- The provisioning endpoint URL built by `getDeviceIdFromServer`. -/
def provURL : String :=
  "http://" ++ SERVER_HOST ++ ":" ++ toString HTTP_PORT ++ "/api/v1/devices/credentials"

/-- Embedding of `getDeviceIdFromServer` (lines 195-252).  Returns the
updated globals, the event trace, and the boolean result.  Note the source
assigns `device_id = deviceObj["id"]` before checking `device_id > 0`. -/
def getDeviceIdFromServer (wifiConnected : Bool) (r : ProvisioningResponse)
    (s : DeviceState) : DeviceState × List Event × Bool :=
  if wifiConnected = false then
    (s, [Event.log "WiFi not connected"], false)
  else
    let ev0 : List Event := [Event.httpGet provURL]
    if r.httpCode = 200 then
      if r.parseOk && r.hasDevice then
        let s' := { s with device_id := r.id }
        if r.id > 0 then
          (s', ev0 ++ [Event.log ("Device ID retrieved: " ++ toString r.id),
                       Event.log ("Device Name: " ++ r.name),
                       Event.log ("Device Type: " ++ r.device_type)], true)
        else
          (s', ev0, false)
      else
        (s, ev0 ++ [Event.log "Invalid response format"], false)
    else if r.httpCode = 401 then
      (s, ev0 ++ [Event.log "Authentication failed - Invalid API key"], false)
    else if r.httpCode = 404 then
      (s, ev0 ++ [Event.log "Device not found"], false)
    else
      (s, ev0 ++ [Event.log "HTTP request failed"], false)

/-- One iteration of the provisioning-failure halt loop in `setup`
(lines 106-109): `blinkLED(3, 500); delay(3000);`. -/
def provisioningHaltIter : List Event :=
  [Event.blink 3 500, Event.delayEv 3000]

/-- The first `n` iterations of the provisioning-failure halt loop
`while(1) { blinkLED(3, 500); delay(3000); }` in `setup`. -/
def provisioningHalt (n : Nat) : List Event :=
  (List.replicate n provisioningHaltIter).flatten

/-- The provisioning phase of `setup` (lines 101-110): call
`getDeviceIdFromServer`; on failure the device halts forever in the blink
loop, of which the first `haltIters` iterations are traced. -/
def provisionPhase (wifiConnected : Bool) (r : ProvisioningResponse)
    (s : DeviceState) (haltIters : Nat) : DeviceState × List Event :=
  let res := getDeviceIdFromServer wifiConnected r s
  if res.2.2 then (res.1, res.2.1)
  else (res.1, res.2.1 ++ provisioningHalt haltIters)

/-! MQTT connection: `connectToMQTT` (lines 254-300). -/

/-- The retained online-status payload built inside `connectToMQTT`. -/
def buildOnlinePayload (timestamp : String) (device_id : Int) : JObj :=
  [("api_key", JVal.s API_KEY),
   ("timestamp", JVal.s timestamp),
   ("status", JVal.s "online"),
   ("device_id", JVal.i device_id)]

/-- The `while (!client.connected())` retry loop of `connectToMQTT`
(lines 260-299).  `attempts` gives the outcomes of successive
`client.connect` calls; `none` means the loop is still blocked (the source
loop is unbounded, so a run in which every listed attempt fails has not yet
terminated). -/
def connectLoop (timestamp : String) (s : DeviceState) :
    List Bool → Option (DeviceState × List Event)
  | [] => if s.clientConnected then some (s, []) else none
  | ok :: rest =>
    if s.clientConnected then some (s, [])
    else
      let clientId := "esp32_simple_" ++ toString s.device_id
      let lwt_topic := "iotflow/devices/" ++ toString s.device_id ++ "/status/offline"
      let attemptEv := Event.connectAttempt clientId lwt_topic
      if ok then
        let online_topic := "iotflow/devices/" ++ toString s.device_id ++ "/status/online"
        let command_topic := "iotflow/devices/" ++ toString s.device_id ++ "/commands/control"
        some ({ s with clientConnected := true, mqttConnected := true },
              [attemptEv,
               Event.publish online_topic (buildOnlinePayload timestamp s.device_id) true,
               Event.subscribe command_topic,
               Event.setMqttConnected true,
               Event.blink 2 100])
      else
        (connectLoop timestamp s rest).map
          (fun p => (p.1, attemptEv :: Event.blink 5 100 :: Event.delayEv 5000 :: p.2))

/-- Embedding of `connectToMQTT` (lines 254-300): an invalid device ID
returns immediately; otherwise the blocking retry loop runs. -/
def connectToMQTT (attempts : List Bool) (timestamp : String)
    (s : DeviceState) : Option (DeviceState × List Event) :=
  if s.device_id ≤ 0 then
    some (s, [Event.log "Cannot connect to MQTT - invalid device ID"])
  else
    connectLoop timestamp s attempts

/-! Telemetry and heartbeat: `sendTelemetryData` (lines 353-410) and
`sendHeartbeat` (lines 412-434). -/

/-- Environment inputs read by `sendTelemetryData`: the DHT readings
(`none` models a not-a-number reading), the internal temperature sensor,
free heap, WiFi RSSI, the millis clock, and whether `client.publish`
succeeds. -/
structure TelemetryEnv where
  temperature : Option ℚ
  humidity : Option ℚ
  cpu_temp : ℚ
  free_heap : Nat
  wifi_rssi : Int
  millis : Nat
  publishOk : Bool
deriving DecidableEq

/-- The C library `round` (half away from zero), as applied by the sketch
to sensor values before serialization. -/
def cround (x : ℚ) : ℤ :=
  if 0 ≤ x then Rat.floor (x + 1 / 2) else -(Rat.floor (-x + 1 / 2))

/-- The telemetry JSON document built by `sendTelemetryData`: api_key and
device_id, then temperature and humidity only when both DHT readings are
valid, then cpu_temp, free_heap and uptime. -/
def buildTelemetryPayload (e : TelemetryEnv) (device_id : Int) : JObj :=
  let dht_valid := e.temperature.isSome && e.humidity.isSome
  [("api_key", JVal.s API_KEY), ("device_id", JVal.i device_id)]
  ++ (if dht_valid then
        [("temperature", JVal.q (((cround ((e.temperature.getD 0) * 10) : ℤ) : ℚ) / 10)),
         ("humidity", JVal.q ((cround (e.humidity.getD 0) : ℤ) : ℚ))]
      else [])
  ++ [("cpu_temp", JVal.q (((cround (e.cpu_temp * 10) : ℤ) : ℚ) / 10)),
      ("free_heap", JVal.i (e.free_heap : Int)),
      ("uptime", JVal.i ((e.millis / 1000 : Nat) : Int))]

/-- Embedding of `sendTelemetryData` (lines 353-410).  Without a live
connection flag and a positive device ID it returns at once; otherwise it
always publishes the built payload, then blinks the LED on success or logs
and blinks on failure. -/
def sendTelemetryData (e : TelemetryEnv) (s : DeviceState) :
    DeviceState × List Event :=
  if s.mqttConnected = false ∨ s.device_id ≤ 0 then (s, [])
  else
    let payload := buildTelemetryPayload e s.device_id
    let topic := "iotflow/devices/" ++ toString s.device_id ++ "/telemetry/sensors"
    if e.publishOk then
      ({ s with ledHigh := false },
       [Event.publish topic payload false,
        Event.digitalWrite LED_PIN true, Event.delayEv 50,
        Event.digitalWrite LED_PIN false])
    else
      (s, [Event.publish topic payload false,
           Event.log "Failed to send telemetry", Event.blink 2 200])

/-- Environment inputs read by `sendHeartbeat`. -/
structure HeartbeatEnv where
  timestamp : String
  millis : Nat
  free_heap : Nat
  wifi_rssi : Int
  publishOk : Bool
deriving DecidableEq

/-- The heartbeat JSON document built by `sendHeartbeat`. -/
def buildHeartbeatPayload (e : HeartbeatEnv) (device_id : Int) : JObj :=
  [("api_key", JVal.s API_KEY),
   ("timestamp", JVal.s e.timestamp),
   ("status", JVal.s "alive"),
   ("device_id", JVal.i device_id),
   ("uptime", JVal.i ((e.millis / 1000 : Nat) : Int)),
   ("free_heap", JVal.i (e.free_heap : Int)),
   ("wifi_rssi", JVal.i e.wifi_rssi)]

/-- Embedding of `sendHeartbeat` (lines 412-434). -/
def sendHeartbeat (e : HeartbeatEnv) (s : DeviceState) :
    DeviceState × List Event :=
  if s.mqttConnected = false ∨ s.device_id ≤ 0 then (s, [])
  else
    let topic := "iotflow/devices/" ++ toString s.device_id ++ "/status/heartbeat"
    (s, [Event.publish topic (buildHeartbeatPayload e s.device_id) false,
         if e.publishOk then Event.log "Heartbeat sent" else Event.log "Heartbeat failed"])

/-! Inbound commands: `mqttCallback` (lines 302-326) and `handleCommand`
(lines 328-351). -/

/-- An inbound MQTT message: the raw payload string accumulated by the
callback, together with the result of `deserializeJson` on it (`none`
models a deserialization error). -/
structure InboundMsg where
  raw : String
  parsed : Option JObj
deriving DecidableEq

/-- Embedding of `handleCommand` (lines 328-351).  The `status` command
re-enters `sendTelemetryData`, so a telemetry environment is threaded in. -/
def handleCommand (command : String) (e : TelemetryEnv) (s : DeviceState) :
    DeviceState × List Event :=
  let pre := Event.log ("Processing command: " ++ command)
  if command == "led_on" then
    ({ s with ledHigh := true },
     [pre, Event.digitalWrite LED_PIN true, Event.log "LED turned ON"])
  else if command == "led_off" then
    ({ s with ledHigh := false },
     [pre, Event.digitalWrite LED_PIN false, Event.log "LED turned OFF"])
  else if command == "restart" then
    (s, [pre, Event.log "Restarting device...", Event.delayEv 1000, Event.restart])
  else if command == "status" then
    let r := sendTelemetryData e s
    (r.1, pre :: r.2 ++ [Event.log "Status sent"])
  else
    (s, [pre, Event.log ("Unknown command: " ++ command)])

/-- Embedding of `mqttCallback` (lines 302-326): a message that parses and
carries a `command` key dispatches its value; otherwise the raw payload is
matched against the substrings led_on, led_off, restart, in that order. -/
def mqttCallback (m : InboundMsg) (e : TelemetryEnv) (s : DeviceState) :
    DeviceState × List Event :=
  let fallback : DeviceState × List Event :=
    if strContains m.raw "led_on" then handleCommand "led_on" e s
    else if strContains m.raw "led_off" then handleCommand "led_off" e s
    else if strContains m.raw "restart" then handleCommand "restart" e s
    else (s, [])
  match m.parsed with
  | some doc =>
    if doc.containsKey "command" then
      handleCommand (JVal.asString ((doc.get "command").getD (JVal.s ""))) e s
    else fallback
  | none => fallback

/-! The main loop: `loop` (lines 121-143). -/

/-- The connection-maintenance step at the top of `loop` (lines 123-125):
when the liveness check `client.connected()` fails, `connectToMQTT` is
invoked (and may block; `none` = still blocked). -/
def maintenanceStep (attempts : List Bool) (timestamp : String)
    (s : DeviceState) : Option (DeviceState × List Event) :=
  if s.clientConnected then some (s, [])
  else connectToMQTT attempts timestamp s

/-- Inbound-message servicing performed by `client.loop()` (line 126): each
queued message runs `mqttCallback`; a `restart` command resets the device,
so processing stops there (flag `true`). -/
def processInbound (e : TelemetryEnv) :
    List InboundMsg → DeviceState → DeviceState × List Event × Bool
  | [], s => (s, [], false)
  | m :: ms, s =>
    let r := mqttCallback m e s
    if r.2.contains Event.restart then (r.1, r.2, true)
    else
      let rest := processInbound e ms r.1
      (rest.1, r.2 ++ rest.2.1, rest.2.2)

/-- The telemetry timer check of `loop` (lines 131-134): when the interval
has elapsed, `sendTelemetryData` runs and `lastTelemetry` is set to
`currentTime` unconditionally afterwards. -/
def telemetryStep (e : TelemetryEnv) (currentTime : Nat) (s : DeviceState) :
    DeviceState × List Event :=
  if TELEMETRY_INTERVAL ≤ usub32 currentTime s.lastTelemetry then
    let r := sendTelemetryData e s
    ({ r.1 with lastTelemetry := currentTime }, r.2)
  else (s, [])

/-- The heartbeat timer check of `loop` (lines 137-140). -/
def heartbeatStep (e : HeartbeatEnv) (currentTime : Nat) (s : DeviceState) :
    DeviceState × List Event :=
  if HEARTBEAT_INTERVAL ≤ usub32 currentTime s.lastHeartbeat then
    let r := sendHeartbeat e s
    ({ r.1 with lastHeartbeat := currentTime }, r.2)
  else (s, [])

/-- The two timer checks of `loop` (lines 128-140), in source order. -/
def timerPhase (te : TelemetryEnv) (he : HeartbeatEnv) (currentTime : Nat)
    (s : DeviceState) : DeviceState × List Event :=
  let r1 := telemetryStep te currentTime s
  let r2 := heartbeatStep he currentTime r1.1
  (r2.1, r1.2 ++ r2.2)

/-- Environment inputs consumed by one `loop` iteration. -/
structure LoopEnv where
  connectAttempts : List Bool
  timestamp : String
  inbound : List InboundMsg
  millis : Nat
  telemetryEnv : TelemetryEnv
  heartbeatEnv : HeartbeatEnv

/-- Embedding of one iteration of `loop` (lines 121-143): maintain the
connection (possibly blocking forever, `none`), service inbound messages
(stopping on a restart), then run the two timer checks and the trailing
`delay(100)`. -/
def loopIter (env : LoopEnv) (s : DeviceState) :
    Option (DeviceState × List Event) :=
  (maintenanceStep env.connectAttempts env.timestamp s).map (fun m =>
    let inb := processInbound env.telemetryEnv env.inbound m.1
    if inb.2.2 then (inb.1, m.2 ++ inb.2.1)
    else
      let t := timerPhase env.telemetryEnv env.heartbeatEnv env.millis inb.1
      (t.1, m.2 ++ inb.2.1 ++ t.2 ++ [Event.delayEv 100]))

/-! Concrete inputs used by the claim witnesses and counterexamples. -/

/-- Sample telemetry environment used by witnesses. -/
def sampleTe : TelemetryEnv := ⟨some 21, some 55, 50, 100000, -40, 12000, true⟩

/-- Sample heartbeat environment used by witnesses. -/
def sampleHe : HeartbeatEnv := ⟨"2026-10-11T00:00:00Z", 12000, 100000, -40, true⟩

def c1s : DeviceState := ⟨7, false, 5, 5, true, false⟩

def c10s : DeviceState := ⟨-1, true, 0, 0, false, false⟩

def c2s : DeviceState := ⟨7, true, 0, 0, false, false⟩

def c2s1 : DeviceState := ⟨7, true, 0, 0, true, false⟩

def c2ev : List Event :=
  [Event.connectAttempt "esp32_simple_7" "iotflow/devices/7/status/offline",
   Event.publish "iotflow/devices/7/status/online" (buildOnlinePayload "t" 7) true,
   Event.subscribe "iotflow/devices/7/commands/control",
   Event.setMqttConnected true,
   Event.blink 2 100]

def c3resp : ProvisioningResponse := ⟨200, true, true, 0, "", ""⟩

def c3s : DeviceState := ⟨-1, false, 0, 0, false, false⟩

def c4r401 : ProvisioningResponse := ⟨401, false, false, 0, "", ""⟩

def c4r404 : ProvisioningResponse := ⟨404, false, false, 0, "", ""⟩

def c4s : DeviceState := ⟨-1, false, 0, 0, false, false⟩

def c5te : TelemetryEnv := ⟨none, some 55, 50, 100000, -40, 12000, true⟩

def c5s : DeviceState := ⟨7, true, 0, 0, true, false⟩

def rawLedOff : InboundMsg := ⟨"led_off", none⟩

def structuredLedOff : InboundMsg :=
  ⟨"\x7b\"command\":\"led_off\"\x7d", some [("command", JVal.s "led_off")]⟩

def c8msg : InboundMsg :=
  ⟨"\x7b\"note\": \"restart later\"\x7d", some [("note", JVal.s "restart later")]⟩

def c8doc : JObj := [("note", JVal.s "restart later")]

def c8s : DeviceState := ⟨7, true, 0, 0, true, false⟩

/-- Helper: `sendTelemetryData` never changes the two timer globals. -/
theorem sendTelemetryData_preserves_timers (e : TelemetryEnv) (s : DeviceState) :
    (sendTelemetryData e s).1.lastTelemetry = s.lastTelemetry ∧
    (sendTelemetryData e s).1.lastHeartbeat = s.lastHeartbeat := by
  unfold sendTelemetryData
  split
  · exact ⟨rfl, rfl⟩
  · split <;> exact ⟨rfl, rfl⟩

/-- Helper: `sendHeartbeat` never changes the two timer globals. -/
theorem sendHeartbeat_preserves_timers (e : HeartbeatEnv) (s : DeviceState) :
    (sendHeartbeat e s).1.lastTelemetry = s.lastTelemetry ∧
    (sendHeartbeat e s).1.lastHeartbeat = s.lastHeartbeat := by
  unfold sendHeartbeat
  split <;> exact ⟨rfl, rfl⟩

/-- C1: with identity unresolved or the connection flag down, telemetry and
heartbeat sends return immediately with no events at all (in particular no
publish), while the loop's timer checks still advance the respective timer
whenever its interval has elapsed. -/
theorem telemetry_heartbeat_gated (s : DeviceState) (te : TelemetryEnv)
    (he : HeartbeatEnv) (t : Nat)
    (h : s.mqttConnected = false ∨ s.device_id ≤ 0) :
    sendTelemetryData te s = (s, []) ∧
    sendHeartbeat he s = (s, []) ∧
    (telemetryStep te t s).1.lastTelemetry =
      (if TELEMETRY_INTERVAL ≤ usub32 t s.lastTelemetry then t else s.lastTelemetry) ∧
    (heartbeatStep he t s).1.lastHeartbeat =
      (if HEARTBEAT_INTERVAL ≤ usub32 t s.lastHeartbeat then t else s.lastHeartbeat) := by
  refine ⟨?_, ?_, ?_, ?_⟩
  · unfold sendTelemetryData
    exact if_pos h
  · unfold sendHeartbeat
    exact if_pos h
  · unfold telemetryStep
    split <;> simp
  · unfold heartbeatStep
    split <;> simp

/-- C1 witness: the theorem instantiated at a concrete gated state. -/
theorem telemetry_heartbeat_gated_witness :
    c1s.mqttConnected = false ∧
    (sendTelemetryData sampleTe c1s = (c1s, []) ∧
     sendHeartbeat sampleHe c1s = (c1s, []) ∧
     (telemetryStep sampleTe 20000 c1s).1.lastTelemetry =
       (if TELEMETRY_INTERVAL ≤ usub32 20000 c1s.lastTelemetry then 20000 else c1s.lastTelemetry) ∧
     (heartbeatStep sampleHe 20000 c1s).1.lastHeartbeat =
       (if HEARTBEAT_INTERVAL ≤ usub32 20000 c1s.lastHeartbeat then 20000 else c1s.lastHeartbeat)) :=
  ⟨rfl, telemetry_heartbeat_gated c1s sampleTe sampleHe 20000 (Or.inl rfl)⟩

/-- Helper: field-level description of the telemetry timer check. -/
theorem telemetryStep_fields (e : TelemetryEnv) (t : Nat) (s : DeviceState) :
    (telemetryStep e t s).1.lastTelemetry =
      (if TELEMETRY_INTERVAL ≤ usub32 t s.lastTelemetry then t else s.lastTelemetry) ∧
    (telemetryStep e t s).1.lastHeartbeat = s.lastHeartbeat := by
  unfold telemetryStep
  split
  · constructor
    · simp_all
    · simpa using (sendTelemetryData_preserves_timers e s).2
  · simp_all

/-- Helper: field-level description of the heartbeat timer check. -/
theorem heartbeatStep_fields (e : HeartbeatEnv) (t : Nat) (s : DeviceState) :
    (heartbeatStep e t s).1.lastTelemetry = s.lastTelemetry ∧
    (heartbeatStep e t s).1.lastHeartbeat =
      (if HEARTBEAT_INTERVAL ≤ usub32 t s.lastHeartbeat then t else s.lastHeartbeat) := by
  unfold heartbeatStep
  split
  · constructor
    · simpa using (sendHeartbeat_preserves_timers e s).1
    · simp_all
  · simp_all

/-- C7: the two timer checks of one loop iteration are independent: after
both run, each timer equals the current time exactly when its own interval
had elapsed, and is otherwise unchanged — triggering one never resets the
other. -/
theorem loop_timers_independent (te : TelemetryEnv) (he : HeartbeatEnv)
    (t : Nat) (s : DeviceState) :
    (timerPhase te he t s).1.lastTelemetry =
      (if TELEMETRY_INTERVAL ≤ usub32 t s.lastTelemetry then t else s.lastTelemetry) ∧
    (timerPhase te he t s).1.lastHeartbeat =
      (if HEARTBEAT_INTERVAL ≤ usub32 t s.lastHeartbeat then t else s.lastHeartbeat) := by
  have key : (timerPhase te he t s).1 = (heartbeatStep he t (telemetryStep te t s).1).1 := rfl
  have e1 := telemetryStep_fields te t s
  have e2 := heartbeatStep_fields he t (telemetryStep te t s).1
  constructor
  · rw [key, e2.1, e1.1]
  · rw [key, e2.2, e1.2]

/-- C10: calling `connectToMQTT` with an unresolved identity returns at
once with only a log line: the state (in particular `mqttConnected`) is
unchanged and no connect, publish or subscribe call occurs. -/
theorem connect_noop_when_unresolved (a : List Bool) (ts : String)
    (s : DeviceState) (h : s.device_id ≤ 0) :
    connectToMQTT a ts s =
      some (s, [Event.log "Cannot connect to MQTT - invalid device ID"]) ∧
    ((connectToMQTT a ts s).map (fun p => (p.1.mqttConnected, p.2.filter isComm)))
      = some (s.mqttConnected, []) := by
  unfold connectToMQTT
  rw [if_pos h]
  exact ⟨rfl, rfl⟩

/-- C10 witness: the theorem instantiated at the boot-time sentinel state. -/
theorem connect_noop_when_unresolved_witness :
    c10s.device_id ≤ 0 ∧
    (connectToMQTT [true, false] "ts" c10s =
       some (c10s, [Event.log "Cannot connect to MQTT - invalid device ID"]) ∧
     ((connectToMQTT [true, false] "ts" c10s).map
        (fun p => (p.1.mqttConnected, p.2.filter isComm)))
       = some (c10s.mqttConnected, [])) :=
  ⟨by decide, connect_noop_when_unresolved [true, false] "ts" c10s (by decide)⟩

/-- Helper: whenever the blocking connect retry loop terminates, the client
is connected, the flag has been set true, and no event of its trace assigns
false to the flag. -/
theorem connectLoop_spec (ts : String) (s : DeviceState) (a : List Bool)
    (s1 : DeviceState) (ev : List Event) (hc : s.clientConnected = false)
    (h : connectLoop ts s a = some (s1, ev)) :
    s1.clientConnected = true ∧ s1.mqttConnected = true ∧
    Event.setMqttConnected false ∉ ev := by
  induction a generalizing s1 ev with
  | nil => simp [connectLoop, hc] at h
  | cons ok rest ih =>
    rw [connectLoop, hc] at h
    simp only [Bool.false_eq_true, if_false] at h
    cases ok with
    | true =>
      simp only [if_true] at h
      obtain ⟨hs, hev⟩ := Prod.mk.injEq .. ▸ (Option.some.injEq .. ▸ h)
      subst hs hev
      refine ⟨rfl, rfl, ?_⟩
      simp
    | false =>
      simp only [Bool.false_eq_true, if_false] at h
      rw [Option.map_eq_some'] at h
      obtain ⟨⟨s2, ev2⟩, hrec, heq⟩ := h
      obtain ⟨hs, hev⟩ := Prod.mk.injEq .. ▸ heq
      subst hs hev
      obtain ⟨h1, h2, h3⟩ := ih s2 ev2 hrec
      refine ⟨h1, h2, ?_⟩
      simp [h3]

/-- C2 (amended): the maintenance step sets the flag true on a successful
connect but never assigns it false; when it completes with identity
resolved, the client is connected and the flag is true whenever the step
had to reconnect or the flag was already true. -/
theorem maintenance_flag (a : List Bool) (ts : String) (s s1 : DeviceState)
    (ev : List Event) (hid : 0 < s.device_id)
    (h : maintenanceStep a ts s = some (s1, ev)) :
    s1.clientConnected = true ∧
    s1.mqttConnected = (s.mqttConnected || !s.clientConnected) ∧
    Event.setMqttConnected false ∉ ev := by
  unfold maintenanceStep at h
  by_cases hc : s.clientConnected = true
  · rw [if_pos hc] at h
    obtain ⟨hs, hev⟩ := Prod.mk.injEq .. ▸ (Option.some.injEq .. ▸ h)
    subst hs hev
    exact ⟨hc, by simp [hc], by simp⟩
  · have hc' : s.clientConnected = false := by simpa using hc
    rw [if_neg hc] at h
    unfold connectToMQTT at h
    rw [if_neg (by omega : ¬ s.device_id ≤ 0)] at h
    obtain ⟨h1, h2, h3⟩ := connectLoop_spec ts s a s1 ev hc' h
    exact ⟨h1, by rw [h2, hc']; simp, h3⟩

/-- C2 (counterexample): a loop iteration whose liveness check detects a
disconnection (clientConnected is false while the flag is still true) runs
a maintenance step that never assigns false to the flag: its trace contains
no such write, refuting that the step toggles the flag in both directions. -/
theorem maintenance_never_clears_flag_counterexample :
    c2s.clientConnected = false ∧ c2s.mqttConnected = true ∧
    ((maintenanceStep [true] "t" c2s).map
      (fun p => (p.2.contains (Event.setMqttConnected false), p.1.mqttConnected)))
      = some (false, true) := ⟨rfl, rfl, by rfl⟩

/-- C2 witness: the amended theorem instantiated at a detected
disconnection with one successful reconnect attempt. -/
theorem maintenance_flag_witness :
    0 < c2s.device_id ∧
    (c2s1.clientConnected = true ∧
     c2s1.mqttConnected = (c2s.mqttConnected || !c2s.clientConnected) ∧
     Event.setMqttConnected false ∉ c2ev) :=
  ⟨by decide, maintenance_flag [true] "t" c2s c2s1 c2ev (by decide) (by rfl)⟩

/-- C3 (counterexample): a 200 provisioning response whose device object
carries id = 0 makes `getDeviceIdFromServer` return false, yet it
overwrites the global device_id from the sentinel -1 to 0 — unlike a
request failure, which leaves it untouched. -/
theorem provisioning_overwrites_sentinel_counterexample :
    (getDeviceIdFromServer true c3resp c3s).2.2 = false ∧
    c3s.device_id = -1 ∧
    (getDeviceIdFromServer true c3resp c3s).1.device_id = 0 := by decide

/-- C3 (amended): on every failing provisioning outcome (non-200 code,
malformed body, missing device object, or id ≤ 0) the function returns
false and the identity stays unresolved (device_id ≤ 0); when the 200
response lacks a parseable device object the global is left unchanged, but
a parsed device object with id ≤ 0 overwrites the sentinel with that
non-positive id. -/
theorem provisioning_failure_unresolved (w : Bool) (r : ProvisioningResponse)
    (s : DeviceState) (hs : s.device_id ≤ 0)
    (h : ¬(r.httpCode = 200 ∧ r.parseOk = true ∧ r.hasDevice = true ∧ 0 < r.id)) :
    (getDeviceIdFromServer w r s).2.2 = false ∧
    (getDeviceIdFromServer w r s).1.device_id ≤ 0 ∧
    (¬(r.httpCode = 200 ∧ r.parseOk = true ∧ r.hasDevice = true) →
      (getDeviceIdFromServer w r s).1 = s) := by
  unfold getDeviceIdFromServer
  by_cases hw : w = false
  · simp [hw, hs]
  · rw [if_neg hw]
    by_cases h200 : r.httpCode = 200
    · rw [if_pos h200]
      by_cases hpd : r.parseOk && r.hasDevice
      · rw [if_pos hpd]
        have hid : ¬ 0 < r.id := by
          rcases Bool.and_eq_true .. ▸ hpd with ⟨hp, hd⟩
          intro hlt
          exact h ⟨h200, hp, hd, hlt⟩
        rw [if_neg hid]
        refine ⟨rfl, by simpa using (by omega : r.id ≤ 0), ?_⟩
        intro hcon
        exfalso
        rcases Bool.and_eq_true .. ▸ hpd with ⟨hp, hd⟩
        exact hcon ⟨h200, hp, hd⟩
      · rw [if_neg hpd]
        exact ⟨rfl, hs, fun _ => rfl⟩
    · rw [if_neg h200]
      by_cases h401 : r.httpCode = 401
      · rw [if_pos h401]
        exact ⟨rfl, hs, fun _ => rfl⟩
      · rw [if_neg h401]
        by_cases h404 : r.httpCode = 404
        · rw [if_pos h404]
          exact ⟨rfl, hs, fun _ => rfl⟩
        · rw [if_neg h404]
          exact ⟨rfl, hs, fun _ => rfl⟩

/-- C3 witness: the amended theorem instantiated at the id = 0 response. -/
theorem provisioning_failure_unresolved_witness :
    c3s.device_id ≤ 0 ∧
    ((getDeviceIdFromServer true c3resp c3s).2.2 = false ∧
     (getDeviceIdFromServer true c3resp c3s).1.device_id ≤ 0 ∧
     (¬(c3resp.httpCode = 200 ∧ c3resp.parseOk = true ∧ c3resp.hasDevice = true) →
       (getDeviceIdFromServer true c3resp c3s).1 = c3s)) :=
  ⟨by decide, provisioning_failure_unresolved true c3resp c3s (by decide) (by decide)⟩

/-- Helper: `visualEvents` distributes over trace concatenation. -/
theorem visualEvents_append (a b : List Event) :
    visualEvents (a ++ b) = visualEvents a ++ visualEvents b :=
  List.filter_append a b

/-- Helper: the provisioning halt loop blinks 3 times at 500 ms each
iteration and performs nothing else visible. -/
theorem provisioningHalt_visual (n : Nat) :
    visualEvents (provisioningHalt n) = List.replicate n (Event.blink 3 500) := by
  induction n with
  | zero => rfl
  | succ k ih =>
    have hsplit : provisioningHalt (k + 1) = provisioningHaltIter ++ provisioningHalt k := by
      simp [provisioningHalt, List.replicate_succ]
    rw [hsplit, visualEvents_append, ih, List.replicate_succ]
    rfl

/-- Helper: the provisioning halt loop performs no HTTP or messaging call. -/
theorem provisioningHalt_no_comm (n : Nat) :
    (provisioningHalt n).filter isComm = [] := by
  induction n with
  | zero => rfl
  | succ k ih =>
    have hsplit : provisioningHalt (k + 1) = provisioningHaltIter ++ provisioningHalt k := by
      simp [provisioningHalt, List.replicate_succ]
    rw [hsplit, List.filter_append, ih]
    rfl

/-- C4 (amended): after a 401 provisioning response the device does halt
and issues no further HTTP or messaging call (the only communication event
ever traced is the single provisioning GET itself), but the halt runs the
one provisioning-failure blink pattern (3 blinks of 500 ms per iteration)
shared by the 404 and other-failure classes rather than a distinct
auth-failure pattern. -/
theorem provisioning_auth_halt (w : Bool) (r : ProvisioningResponse)
    (s : DeviceState) (n : Nat) (h : r.httpCode = 401) :
    (provisionPhase w r s n).2.filter isComm
      = (if w then [Event.httpGet provURL] else []) ∧
    visualEvents (provisionPhase w r s n).2
      = List.replicate n (Event.blink 3 500) := by
  have h200 : ¬ r.httpCode = 200 := by rw [h]; decide
  cases w with
  | false =>
    have hres : getDeviceIdFromServer false r s
        = (s, [Event.log "WiFi not connected"], false) := by
      simp [getDeviceIdFromServer]
    constructor
    · simp only [provisionPhase, hres, Bool.false_eq_true, if_false]
      rw [List.filter_append, provisioningHalt_no_comm]
      rfl
    · simp only [provisionPhase, hres, Bool.false_eq_true, if_false]
      rw [visualEvents_append, provisioningHalt_visual]
      rfl
  | true =>
    have hres : getDeviceIdFromServer true r s
        = (s, [Event.httpGet provURL,
               Event.log "Authentication failed - Invalid API key"], false) := by
      simp [getDeviceIdFromServer, h200, h]
    constructor
    · simp only [provisionPhase, hres, Bool.false_eq_true, if_false]
      rw [List.filter_append, provisioningHalt_no_comm]
      rfl
    · simp only [provisionPhase, hres, Bool.false_eq_true, if_false]
      rw [visualEvents_append, provisioningHalt_visual]
      rfl

/-- C4 (counterexample): the visual signal pattern of the halt state
reached after a 401 provisioning response is identical, not distinct, to
the one reached after a 404 response. -/
theorem provisioning_halt_pattern_counterexample :
    visualEvents (provisionPhase true c4r401 c4s 2).2
      = visualEvents (provisionPhase true c4r404 c4s 2).2 ∧
    visualEvents (provisionPhase true c4r401 c4s 2).2
      = [Event.blink 3 500, Event.blink 3 500] := by decide

/-- C4 witness: the amended theorem instantiated at a concrete 401
response with one traced halt iteration. -/
theorem provisioning_auth_halt_witness :
    c4r401.httpCode = 401 ∧
    ((provisionPhase true c4r401 c4s 1).2.filter isComm
       = (if true then [Event.httpGet provURL] else []) ∧
     visualEvents (provisionPhase true c4r401 c4s 1).2
       = List.replicate 1 (Event.blink 3 500)) :=
  ⟨rfl, provisioning_auth_halt true c4r401 c4s 1 rfl⟩

/-- Helper: presence of the environmental keys in the telemetry payload
equals validity of both DHT readings. -/
theorem buildTelemetryPayload_env_keys (te : TelemetryEnv) (d : Int) :
    (buildTelemetryPayload te d).containsKey "temperature"
      = (te.temperature.isSome && te.humidity.isSome) ∧
    (buildTelemetryPayload te d).containsKey "humidity"
      = (te.temperature.isSome && te.humidity.isSome) := by
  cases hdv : (te.temperature.isSome && te.humidity.isSome) <;>
    simp only [buildTelemetryPayload, hdv, Bool.false_eq_true, if_false, if_true] <;>
    exact ⟨rfl, rfl⟩

/-- Helper: the system fields are always present in the telemetry payload. -/
theorem buildTelemetryPayload_sys_keys (te : TelemetryEnv) (d : Int) :
    (buildTelemetryPayload te d).containsKey "api_key" = true ∧
    (buildTelemetryPayload te d).containsKey "device_id" = true ∧
    (buildTelemetryPayload te d).containsKey "cpu_temp" = true ∧
    (buildTelemetryPayload te d).containsKey "free_heap" = true ∧
    (buildTelemetryPayload te d).containsKey "uptime" = true := by
  cases hdv : (te.temperature.isSome && te.humidity.isSome) <;>
    simp only [buildTelemetryPayload, hdv, Bool.false_eq_true, if_false, if_true] <;>
    exact ⟨rfl, rfl, rfl, rfl, rfl⟩

/-- Helper: an ungated telemetry send publishes exactly the built payload,
whether or not the publish succeeds. -/
theorem publishedPayloads_sendTelemetry (te : TelemetryEnv) (s : DeviceState)
    (h : ¬(s.mqttConnected = false ∨ s.device_id ≤ 0)) :
    publishedPayloads (sendTelemetryData te s).2
      = [buildTelemetryPayload te s.device_id] := by
  unfold sendTelemetryData
  rw [if_neg h]
  cases hpb : te.publishOk <;> simp [hpb, publishedPayloads]

/-- C5: with identity resolved and connection up, a not-a-number DHT
reading never prevents the telemetry publish: exactly one payload is
published, with the environmental fields omitted and all system fields
present. -/
theorem telemetry_sent_despite_nan (s : DeviceState) (te : TelemetryEnv)
    (hc : s.mqttConnected = true) (hid : 0 < s.device_id)
    (hnan : te.temperature = none ∨ te.humidity = none) :
    (publishedPayloads (sendTelemetryData te s).2).map
      (fun p => (p.containsKey "temperature", p.containsKey "humidity",
                 p.containsKey "api_key", p.containsKey "device_id",
                 p.containsKey "cpu_temp", p.containsKey "free_heap",
                 p.containsKey "uptime"))
      = [(false, false, true, true, true, true, true)] := by
  have hguard : ¬(s.mqttConnected = false ∨ s.device_id ≤ 0) := by
    rintro (h | h)
    · rw [hc] at h; exact absurd h (by decide)
    · omega
  have hdv : (te.temperature.isSome && te.humidity.isSome) = false := by
    rcases hnan with h | h <;> simp [h]
  rw [publishedPayloads_sendTelemetry te s hguard]
  obtain ⟨he1, he2⟩ := buildTelemetryPayload_env_keys te s.device_id
  obtain ⟨hs1, hs2, hs3, hs4, hs5⟩ := buildTelemetryPayload_sys_keys te s.device_id
  simp [he1, he2, hs1, hs2, hs3, hs4, hs5, hdv]

/-- C5 witness: the theorem instantiated at a concrete state with a
not-a-number temperature reading. -/
theorem telemetry_sent_despite_nan_witness :
    c5s.mqttConnected = true ∧ 0 < c5s.device_id ∧ c5te.temperature = none ∧
    (publishedPayloads (sendTelemetryData c5te c5s).2).map
      (fun p => (p.containsKey "temperature", p.containsKey "humidity",
                 p.containsKey "api_key", p.containsKey "device_id",
                 p.containsKey "cpu_temp", p.containsKey "free_heap",
                 p.containsKey "uptime"))
      = [(false, false, true, true, true, true, true)] :=
  ⟨rfl, by decide, rfl,
   telemetry_sent_despite_nan c5s c5te rfl (by decide) (Or.inl rfl)⟩

/-- C9: in every payload published by `sendTelemetryData`, the temperature
field is present exactly when the humidity field is: both appear when both
DHT readings are valid and both are omitted otherwise. -/
theorem telemetry_env_fields_together (te : TelemetryEnv) (s : DeviceState) :
    ((publishedPayloads (sendTelemetryData te s).2).all
      (fun p =>
        (p.containsKey "temperature" == (te.temperature.isSome && te.humidity.isSome)) &&
        (p.containsKey "humidity" == (te.temperature.isSome && te.humidity.isSome))))
      = true := by
  by_cases hguard : (s.mqttConnected = false ∨ s.device_id ≤ 0)
  · unfold sendTelemetryData
    rw [if_pos hguard]
    rfl
  · rw [publishedPayloads_sendTelemetry te s hguard]
    obtain ⟨he1, he2⟩ := buildTelemetryPayload_env_keys te s.device_id
    simp [he1, he2]

/-- C6: the raw substring payload led_off and the structured payload with
command led_off produce identical results: in both cases the indicator pin
is driven LOW. -/
theorem led_off_raw_equals_structured (e : TelemetryEnv) (s : DeviceState) :
    mqttCallback rawLedOff e s = mqttCallback structuredLedOff e s ∧
    (mqttCallback rawLedOff e s).1.ledHigh = false ∧
    Event.digitalWrite LED_PIN false ∈ (mqttCallback rawLedOff e s).2 := by
  have h1 : mqttCallback rawLedOff e s = handleCommand "led_off" e s := by rfl
  have h2 : mqttCallback structuredLedOff e s = handleCommand "led_off" e s := by rfl
  have h3 : handleCommand "led_off" e s
      = ({ s with ledHigh := false },
         [Event.log "Processing command: led_off",
          Event.digitalWrite LED_PIN false, Event.log "LED turned OFF"]) := by rfl
  refine ⟨h1.trans h2.symm, ?_, ?_⟩
  · rw [h1, h3]
  · rw [h1, h3]
    simp

/-- C8: the substring fallback runs only when the payload fails to parse or
lacks a command field: a message with a command field always dispatches
that field's value, never the fallback, while a message without one whose
raw text contains the substring restart (and neither led substring)
triggers the restart command. -/
theorem command_fallback_dispatch (m : InboundMsg) (doc : JObj)
    (e : TelemetryEnv) (s : DeviceState) :
    (m.parsed = some doc → doc.containsKey "command" = true →
      mqttCallback m e s =
        handleCommand (JVal.asString ((doc.get "command").getD (JVal.s ""))) e s) ∧
    ((m.parsed = none ∨ (m.parsed = some doc ∧ doc.containsKey "command" = false)) →
      strContains m.raw "led_on" = false → strContains m.raw "led_off" = false →
      strContains m.raw "restart" = true →
      (mqttCallback m e s = handleCommand "restart" e s ∧
       Event.restart ∈ (mqttCallback m e s).2)) := by
  constructor
  · intro hp hck
    unfold mqttCallback
    rw [hp]
    simp only [hck, if_true]
  · intro hp hon hoff hre
    have hfb : mqttCallback m e s = handleCommand "restart" e s := by
      unfold mqttCallback
      rcases hp with hp | ⟨hp, hck⟩
      · rw [hp]
        simp only [hon, hoff, hre, Bool.false_eq_true, if_false, if_true]
      · rw [hp]
        simp only [hck, Bool.false_eq_true, if_false, hon, hoff, hre, if_true]
    refine ⟨hfb, ?_⟩
    rw [hfb]
    unfold handleCommand
    simp

/-- C8 witness: a valid-JSON payload without a command field whose text
contains the substring restart makes the fallback restart the device. -/
theorem command_fallback_dispatch_witness :
    (c8msg.parsed = some c8doc ∧ c8doc.containsKey "command" = false ∧
     strContains c8msg.raw "led_on" = false ∧
     strContains c8msg.raw "led_off" = false ∧
     strContains c8msg.raw "restart" = true) ∧
    (mqttCallback c8msg sampleTe c8s = handleCommand "restart" sampleTe c8s ∧
     Event.restart ∈ (mqttCallback c8msg sampleTe c8s).2) :=
  ⟨⟨rfl, rfl, by decide, by decide, by decide⟩,
   (command_fallback_dispatch c8msg c8doc sampleTe c8s).2
     (Or.inr ⟨rfl, rfl⟩) (by decide) (by decide) (by decide)⟩

end IoTFlow
